import Mathlib

/-!
Verification development for the rlgl-cpp render-batching core.

The definitions below are a shallow embedding of the draw-call accumulation
engine: `DrawCall`, the `RenderBatch` draw-call queue, and the `Context`
accumulation state machine (`Begin`, `Vertex`, `SetTexture`,
`CheckRenderBatchLimit`, `DrawRenderBatch`, `SetRenderBatchActive`), translated
from `src/source/rlgl.cpp` and `src/source/rlRenderBatch.cpp`.

Modelling conventions:
  * Machine integers that are always non-negative (`vertexCount`,
    `vertexCounter`, texture ids, buffer sizes) are modelled as `Nat`;
    every theorem that relies on `elementCount >= 1` (so that the C++
    expression `elementCount*4 - 4` is non-negative and `Nat` subtraction
    agrees with `int` subtraction) states it as a hypothesis.
  * The GL side effects (buffer uploads, attribute binds, uniforms,
    viewport and matrix juggling, depth bookkeeping) carry no state the
    batching logic reads back, and are elided.
  * The `std::queue<DrawCall> drawQueue` is always non-empty, so it is
    modelled as `closedCalls ++ [openCall]`: `closedCalls` are the retired
    front entries in FIFO order, `openCall` is the back of the queue (the
    call currently accumulating, `draws[drawCounter - 1]` in the array
    variant of the same engine).
  * Two ghost fields instrument the state for the statements only:
    `flushCount` counts completed `DrawRenderBatch` calls, and `writeLog`
    records the value of `vertexCounter` at the moment of every CPU-array
    write performed by `Vertex`.  No transition reads them.
  * `RL_DEFAULT_BATCH_DRAWCALLS` (the draw-call queue limit compared against
    `drawCounter` in `Begin`/`SetTexture`) is a compile-time constant whose
    defining header `rlConfig.hpp` is not part of the sources; it is carried
    as the field `drawCallsLimit`.
-/

namespace Rlgl

/-- Primitive topology of a draw call (`DrawMode` in `rlEnums.hpp`). -/
inductive DrawMode where
  | lines
  | triangles
  | quads
deriving DecidableEq

/-- Vertices consumed per complete primitive unit: 2 for lines, 3 for
triangles, 4 for quads. -/
def unitOf : DrawMode → Nat
  | .lines => 2
  | .triangles => 3
  | .quads => 4

/-- One accumulated span of vertices sharing a texture and a topology
(`struct DrawCall` in `rlRenderBatch.hpp`). -/
structure DrawCall where
  mode : DrawMode := .quads
  vertexCount : Nat := 0
  vertexAlignment : Nat := 0
  textureId : Nat := 0
deriving DecidableEq

/-- `DrawCall(uint32_t textureId)` constructor: default mode `Quads`,
zero counts, the given texture. -/
def defaultDrawCall (textureId : Nat) : DrawCall :=
  { textureId := textureId }

/-- The render batch state the accumulation logic reads and writes
(`struct RenderBatch`): the multi-buffer ring bookkeeping and the
draw-call queue, represented as `closedCalls ++ [openCall]`. -/
structure RenderBatch where
  bufferCount : Nat
  currentBuffer : Nat
  elementCount : Nat
  closedCalls : List DrawCall
  openCall : DrawCall
deriving DecidableEq

/-- The `Context` state the batching core touches: the active batch,
`State.vertexCounter`, the default texture id, the queue limit constant,
plus the two ghost instrumentation fields. -/
structure Ctx where
  batch : RenderBatch
  vertexCounter : Nat
  defaultTextureId : Nat
  drawCallsLimit : Nat
  flushCount : Nat
  writeLog : List Nat
deriving DecidableEq

/-- `elementCount*4`: vertex capacity of the active buffer generation. -/
def bufferCapacity (c : Ctx) : Nat :=
  c.batch.elementCount * 4

/-- `drawQueue.size()` / `drawCounter`: the queue always holds the open
call plus the closed ones. -/
def drawCounter (c : Ctx) : Nat :=
  c.batch.closedCalls.length + 1

/-- `RenderBatch::Draw` (non-stereo path, `eyeCount == 1`), restricted to
the state it mutates: when `vertexCounter > 0` the drain loop renders and
pops every queued call, after which a fresh default call is pushed; the
buffer ring always advances.  The GPU uploads and draws are elided. -/
def RenderBatch.drawReset (vertexCounter defaultTextureId : Nat)
    (b : RenderBatch) : RenderBatch :=
  let b1 :=
    if 0 < vertexCounter then
      { b with closedCalls := [], openCall := defaultDrawCall defaultTextureId }
    else b
  { b1 with currentBuffer :=
      if b1.bufferCount ≤ b1.currentBuffer + 1 then 0 else b1.currentBuffer + 1 }

/-- `Context::DrawRenderBatch`: run the batch draw, then reset
`State.vertexCounter` to 0 (the auxiliary `activeTextureId` reset touches
no state modelled here).  `flushCount` is ghost instrumentation. -/
def Ctx.drawRenderBatch (c : Ctx) : Ctx :=
  { c with
    batch := RenderBatch.drawReset c.vertexCounter c.defaultTextureId c.batch,
    vertexCounter := 0,
    flushCount := c.flushCount + 1 }

/-- `Context::CheckRenderBatchLimit(vCount)`: on overflow, save the open
call's mode and texture, flush, and restore them into the fresh open call. -/
def Ctx.checkRenderBatchLimit (vCount : Nat) (c : Ctx) : Bool × Ctx :=
  if bufferCapacity c ≤ c.vertexCounter + vCount then
    let currentMode := c.batch.openCall.mode
    let currentTexture := c.batch.openCall.textureId
    let c1 := c.drawRenderBatch
    (true,
      { c1 with batch := { c1.batch with openCall :=
          { c1.batch.openCall with mode := currentMode, textureId := currentTexture } } })
  else
    (false, c)

/-- The alignment computed when a call with accumulated vertices is closed
(`Context::Begin` lines 497-510 and the identical block in
`Context::SetTexture`): lines pad by `vertexCount` below 4 and by
`vertexCount % 4` above, triangles pad by 1 below 4 and by
`4 - vertexCount % 4` above, quads never pad. -/
def computeAlignment (d : DrawCall) : Nat :=
  match d.mode with
  | .lines => if d.vertexCount < 4 then d.vertexCount else d.vertexCount % 4
  | .triangles => if d.vertexCount < 4 then 1 else 4 - d.vertexCount % 4
  | .quads => 0

/-- `draws[drawCounter - 1].vertexAlignment = a`. -/
def Ctx.setAlignment (a : Nat) (c : Ctx) : Ctx :=
  { c with batch := { c.batch with openCall :=
    { c.batch.openCall with vertexAlignment := a } } }

/-- `State.vertexCounter += a; drawCounter++`: account the alignment
padding and open a fresh queue slot (default mode, zero counts, default
texture, as the queue's `DrawCall` constructor produces). -/
def Ctx.pushNewCall (a : Nat) (c : Ctx) : Ctx :=
  { c with
    vertexCounter := c.vertexCounter + a,
    batch := { c.batch with
      closedCalls := c.batch.closedCalls ++ [c.batch.openCall],
      openCall := defaultDrawCall c.defaultTextureId } }

/-- The call-closing block shared by `Begin` and `SetTexture`: if the open
call has vertices, store its alignment, run `CheckRenderBatchLimit` on it
and, when no overflow flush happened, advance `vertexCounter` by the
alignment and open a new call. -/
def Ctx.closeCurrentCall (c : Ctx) : Ctx :=
  if 0 < c.batch.openCall.vertexCount then
    if ((c.setAlignment (computeAlignment c.batch.openCall)).checkRenderBatchLimit
        (computeAlignment c.batch.openCall)).1 = false then
      (((c.setAlignment (computeAlignment c.batch.openCall)).checkRenderBatchLimit
        (computeAlignment c.batch.openCall)).2).pushNewCall
          (computeAlignment c.batch.openCall)
    else
      ((c.setAlignment (computeAlignment c.batch.openCall)).checkRenderBatchLimit
        (computeAlignment c.batch.openCall)).2
  else c

/-- `if (drawCounter >= RL_DEFAULT_BATCH_DRAWCALLS) DrawRenderBatch(currentBatch);` -/
def Ctx.queueLimitFlush (c : Ctx) : Ctx :=
  if c.drawCallsLimit ≤ drawCounter c then c.drawRenderBatch else c

/-- The tail of `Begin`: retarget the open call to the new mode with zero
vertices and the default texture. -/
def Ctx.retargetMode (mode : DrawMode) (c : Ctx) : Ctx :=
  { c with batch := { c.batch with openCall :=
    { c.batch.openCall with mode := mode, vertexCount := 0, textureId := c.defaultTextureId } } }

/-- `Context::Begin(mode)`: on a mode change, close the current call,
flush if the queue limit is reached, then retarget the open call. -/
def Ctx.begin (mode : DrawMode) (c : Ctx) : Ctx :=
  if c.batch.openCall.mode ≠ mode then
    Ctx.retargetMode mode c.closeCurrentCall.queueLimitFlush
  else c

/-- The unconditional tail of `Context::Vertex`: write position, texcoord
and color at index `vertexCounter` into the active buffer's CPU arrays,
then increment `State.vertexCounter` and the open call's `vertexCount`.
The attribute values themselves are elided; the ghost `writeLog` records
the write position. -/
def Ctx.writeVertex (c : Ctx) : Ctx :=
  { c with
    vertexCounter := c.vertexCounter + 1,
    batch := { c.batch with openCall :=
      { c.batch.openCall with vertexCount := c.batch.openCall.vertexCount + 1 } },
    writeLog := c.writeLog ++ [c.vertexCounter] }

/-- The overflow guard of `Context::Vertex`: if the buffer is within 4
vertices of capacity and the open call sits on a whole-primitive
boundary, run the mode-specific `CheckRenderBatchLimit` (one extra vertex
added to each check for security). -/
def Ctx.vertexFlushCheck (c : Ctx) : Ctx :=
  if bufferCapacity c - 4 < c.vertexCounter then
    match c.batch.openCall.mode with
    | .lines =>
      if c.batch.openCall.vertexCount % 2 = 0 then
        (c.checkRenderBatchLimit (2 + 1)).2
      else c
    | .triangles =>
      if c.batch.openCall.vertexCount % 3 = 0 then
        (c.checkRenderBatchLimit (3 + 1)).2
      else c
    | .quads =>
      if c.batch.openCall.vertexCount % 4 = 0 then
        (c.checkRenderBatchLimit (4 + 1)).2
      else c
  else c

/-- `Context::Vertex(x, y, z)`: the overflow guard followed by the
attribute writes and counter increments. -/
def Ctx.vertex (c : Ctx) : Ctx :=
  (c.vertexFlushCheck).writeVertex

/-- The tail of `SetTexture` on a texture change: retarget the open call
to the new texture with zero vertices (mode is left as the fresh slot
has it). -/
def Ctx.retargetTexture (id : Nat) (c : Ctx) : Ctx :=
  { c with batch := { c.batch with openCall :=
    { c.batch.openCall with textureId := id, vertexCount := 0 } } }

/-- `Context::SetTexture(id)`: with the default-texture sentinel 0, flush
only when `vertexCounter` has reached the full buffer capacity; with a new
non-zero texture, close the current call (alignment and capacity dance),
flush on the queue limit, and retarget the open call to the new texture. -/
def Ctx.setTexture (id : Nat) (c : Ctx) : Ctx :=
  if id = 0 then
    if bufferCapacity c ≤ c.vertexCounter then c.drawRenderBatch else c
  else
    if c.batch.openCall.textureId ≠ id then
      Ctx.retargetTexture id c.closeCurrentCall.queueLimitFlush
    else c

/-- `Context::SetRenderBatchActive(batch)`: always flush the current
batch and fall back to the default batch first; a null pointer is then
rejected with an exception, otherwise the given batch becomes current. -/
def Ctx.setRenderBatchActive (batchPtr : Option RenderBatch)
    (defaultBatch : RenderBatch) (c : Ctx) : Except String Ctx :=
  let c1 := c.drawRenderBatch
  let c2 := { c1 with batch := defaultBatch }
  match batchPtr with
  | none => Except.error "Context::SetRenderBatchActive: pointer to given batch is null"
  | some b => Except.ok { c2 with batch := b }

/-- Initial context as built by the `Context` and `RenderBatch`
constructors: empty buffers, one default draw call queued, counters zero. -/
def initCtx (numBuffers bufferElements drawCallsLimit defaultTextureId : Nat) : Ctx :=
  { batch :=
      { bufferCount := numBuffers
        currentBuffer := 0
        elementCount := bufferElements
        closedCalls := []
        openCall := defaultDrawCall defaultTextureId }
    vertexCounter := 0
    defaultTextureId := defaultTextureId
    drawCallsLimit := drawCallsLimit
    flushCount := 0
    writeLog := [] }

/-- An accumulation-API event, for quantifying over call histories. -/
inductive Op where
  | beginMode : DrawMode → Op
  | vertex : Op
  | setTexture : Nat → Op
  | flush : Op
deriving DecidableEq

/-- Execute one accumulation-API event. -/
def Ctx.step (c : Ctx) : Op → Ctx
  | .beginMode m => c.begin m
  | .vertex => c.vertex
  | .setTexture id => c.setTexture id
  | .flush => c.drawRenderBatch

/-- Execute a call history left to right. -/
def Ctx.run (c : Ctx) (ops : List Op) : Ctx :=
  ops.foldl Ctx.step c

/-!
The stereo path of `RenderBatch::Draw` (rlRenderBatch.cpp) drains the
queue with

    for (int vertexOffset = 0; !drawQueue.empty();)
    {
        drawQueue.front().Render(vertexOffset);
        if (eye == eyeCount - 1) drawQueue.pop();
    }

inside the per-eye loop.  The loop is modelled fuel-indexed: `none` means
the fuel ran out with the loop still running, so a result of `none` for
every fuel is non-termination.  The queue is the plain `std::queue`
contents, head = front.
-/

/-- One eye's drain loop: render the front call (advancing the shared
`vertexOffset` by `vertexCount + vertexAlignment` as `DrawCall::Render`
does), and pop it only on the final eye. -/
def renderPass (eye eyeCount : Nat) : Nat → List DrawCall → Nat → Option (List DrawCall × Nat)
  | _, [], off => some ([], off)
  | 0, _ :: _, _ => none
  | fuel + 1, d :: rest, off =>
    renderPass eye eyeCount fuel (if eye = eyeCount - 1 then rest else d :: rest)
      (off + (d.vertexCount + d.vertexAlignment))

/-- The `for (eye = 0; eye < eyeCount; eye++)` loop, by remaining eyes;
the drain only runs when `vertexCounter > 0`. -/
def drawEyesAux (vertexCounter eyeCount fuel : Nat) : Nat → List DrawCall → Option (List DrawCall)
  | 0, q => some q
  | remaining + 1, q =>
    let eye := eyeCount - (remaining + 1)
    if 0 < vertexCounter then
      match renderPass eye eyeCount fuel q 0 with
      | none => none
      | some (q2, _) => drawEyesAux vertexCounter eyeCount fuel remaining q2
    else drawEyesAux vertexCounter eyeCount fuel remaining q

/-- `RenderBatch::Draw` over the queue contents, fuel-indexed:
`eyeCount` is 2 under stereo rendering, and after the eye loop a fresh
default call is pushed if the queue drained empty. -/
def renderBatchDrawFuel (fuel vertexCounter : Nat) (stereoRender : Bool)
    (defaultTextureId : Nat) (q : List DrawCall) : Option (List DrawCall) :=
  let eyeCount := if stereoRender then 2 else 1
  match drawEyesAux vertexCounter eyeCount fuel eyeCount q with
  | none => none
  | some q2 => some (if q2.length = 0 then [defaultDrawCall defaultTextureId] else q2)

/-- One line primitive: `Begin(Lines)` reuses the open Lines call, so a
line is exactly two `Vertex` calls. -/
def Ctx.linePair (c : Ctx) : Ctx :=
  c.vertex.vertex

/-- `BeginPrimitive(Lines)` followed by N lines of exactly 2 vertices
each, with no other flush-forcing event. -/
def runLines (c : Ctx) (n : Nat) : Ctx :=
  Ctx.linePair^[n] (c.begin .lines)

/-- A disciplined accumulation event: primitives are only emitted as
complete units (2 vertices per line, 3 per triangle, 4 per quad) between
mode or texture switches. -/
inductive DOp where
  | dbegin : DrawMode → DOp
  | dtex : Nat → DOp
  | dprim : DOp
deriving DecidableEq

/-- Execute one disciplined event; `dprim` emits one complete primitive
unit of the open call's mode. -/
def Ctx.dstep (c : Ctx) : DOp → Ctx
  | .dbegin m => c.begin m
  | .dtex id => c.setTexture id
  | .dprim => Ctx.vertex^[unitOf c.batch.openCall.mode] c

/-- Execute a disciplined call sequence left to right. -/
def Ctx.drun (c : Ctx) (ops : List DOp) : Ctx :=
  ops.foldl Ctx.dstep c

/-- Test state: an open Triangles call of 12 vertices (4 complete
triangles, already ending on a multiple-of-4 boundary) in a large buffer. -/
def exTriangles12 : Ctx :=
  { initCtx 3 10 256 1 with
    vertexCounter := 12,
    batch := { (initCtx 3 10 256 1).batch with openCall :=
      { mode := .triangles, vertexCount := 12, vertexAlignment := 0, textureId := 1 } } }

/-- Test state: an open Triangles call holding a single dangling vertex. -/
def exTriangles1 : Ctx :=
  { initCtx 3 10 256 1 with
    vertexCounter := 1,
    batch := { (initCtx 3 10 256 1).batch with openCall :=
      { mode := .triangles, vertexCount := 1, vertexAlignment := 0, textureId := 1 } } }

/-- Test state: an open Triangles call of 6 vertices (2 complete
triangles) in a large buffer. -/
def exTriangles6 : Ctx :=
  { initCtx 3 10 256 1 with
    vertexCounter := 6,
    batch := { (initCtx 3 10 256 1).batch with openCall :=
      { mode := .triangles, vertexCount := 6, vertexAlignment := 0, textureId := 1 } } }

/-- Test state: 5 vertices accumulated in a buffer of capacity 8
(2 quads), so fewer than 4 slots remain free. -/
def exMidBuffer : Ctx :=
  { initCtx 3 2 256 1 with
    vertexCounter := 5,
    batch := { (initCtx 3 2 256 1).batch with openCall :=
      { mode := .quads, vertexCount := 5, vertexAlignment := 0, textureId := 1 } } }

/-- Test state: 3 vertices of an open Lines call in a buffer of capacity 4. -/
def exNearFull : Ctx :=
  { initCtx 3 1 256 1 with
    vertexCounter := 3,
    batch := { (initCtx 3 1 256 1).batch with openCall :=
      { mode := .lines, vertexCount := 3, vertexAlignment := 0, textureId := 9 } } }

/-- The configuration data no accumulation-API call ever changes: the
default texture, the queue limit constant, and the batch's buffer
geometry. -/
def SameConfig (c1 c2 : Ctx) : Prop :=
  c1.defaultTextureId = c2.defaultTextureId ∧
  c1.drawCallsLimit = c2.drawCallsLimit ∧
  c1.batch.elementCount = c2.batch.elementCount ∧
  c1.batch.bufferCount = c2.batch.bufferCount

/-- Counter consistency, preserved by every accumulation event: the open
call's count never exceeds the global cursor, retired calls imply
accumulated vertices, and the buffer ring index is in range. -/
def ReachInv (c : Ctx) : Prop :=
  c.batch.openCall.vertexCount ≤ c.vertexCounter ∧
  (c.batch.closedCalls = [] ∨ 0 < c.vertexCounter) ∧
  c.batch.currentBuffer < c.batch.bufferCount

/-- Buffer-safety invariant: the buffer holds at least one quad, the
cursor never exceeds capacity, a partially emitted primitive unit always
started at or below `capacity - 4` (the level the `Vertex` overflow guard
enforces at unit boundaries), and every logged write position is in
bounds. -/
def MidInv (c : Ctx) : Prop :=
  4 ≤ bufferCapacity c ∧
  c.vertexCounter ≤ bufferCapacity c ∧
  (c.batch.openCall.vertexCount % unitOf c.batch.openCall.mode ≠ 0 →
    c.vertexCounter ≤ bufferCapacity c - 4 +
      c.batch.openCall.vertexCount % unitOf c.batch.openCall.mode) ∧
  (∀ x ∈ c.writeLog, x < bufferCapacity c)

/-- Canonical state shape along a pure `BeginPrimitive(Lines)` plus
line-pair run: one open Lines call in an otherwise empty queue, its count
in lockstep with the cursor, an even cursor within the per-generation
line budget `capacity - 2` (the "+1 for security" guard in `Vertex` cuts
each generation two vertices short), and the `2*k` vertices emitted so
far split into flushed generations of `capacity - 2` plus the cursor. -/
def LinesInv (bufferElements drawCallsLimit k : Nat) (c : Ctx) : Prop :=
  c.batch.elementCount = bufferElements ∧
  c.drawCallsLimit = drawCallsLimit ∧
  c.batch.closedCalls = [] ∧
  c.batch.openCall.mode = .lines ∧
  c.batch.openCall.vertexCount = c.vertexCounter ∧
  c.vertexCounter % 2 = 0 ∧
  c.vertexCounter ≤ bufferElements * 4 - 2 ∧
  2 * k = c.flushCount * (bufferElements * 4 - 2) + c.vertexCounter ∧
  (0 < k → 0 < c.vertexCounter)

/-! ### Characterization lemmas for the flush and its callers -/

theorem sameConfig_refl (c : Ctx) : SameConfig c c :=
  ⟨rfl, rfl, rfl, rfl⟩

theorem sameConfig_trans {c1 c2 c3 : Ctx}
    (h1 : SameConfig c1 c2) (h2 : SameConfig c2 c3) : SameConfig c1 c3 := by
  obtain ⟨a1, b1, d1, e1⟩ := h1
  obtain ⟨a2, b2, d2, e2⟩ := h2
  exact ⟨a1.trans a2, b1.trans b2, d1.trans d2, e1.trans e2⟩

theorem sameConfig_bufferCapacity {c1 c2 : Ctx} (h : SameConfig c1 c2) :
    bufferCapacity c1 = bufferCapacity c2 := by
  unfold bufferCapacity
  rw [h.2.2.1]

@[simp] theorem drawRenderBatch_vertexCounter (c : Ctx) :
    (c.drawRenderBatch).vertexCounter = 0 := rfl

@[simp] theorem drawRenderBatch_flushCount (c : Ctx) :
    (c.drawRenderBatch).flushCount = c.flushCount + 1 := rfl

@[simp] theorem drawRenderBatch_defaultTextureId (c : Ctx) :
    (c.drawRenderBatch).defaultTextureId = c.defaultTextureId := rfl

@[simp] theorem drawRenderBatch_drawCallsLimit (c : Ctx) :
    (c.drawRenderBatch).drawCallsLimit = c.drawCallsLimit := rfl

@[simp] theorem drawRenderBatch_writeLog (c : Ctx) :
    (c.drawRenderBatch).writeLog = c.writeLog := rfl

@[simp] theorem drawRenderBatch_elementCount (c : Ctx) :
    (c.drawRenderBatch).batch.elementCount = c.batch.elementCount := by
  unfold Ctx.drawRenderBatch RenderBatch.drawReset
  dsimp only
  split <;> rfl

@[simp] theorem drawRenderBatch_bufferCount (c : Ctx) :
    (c.drawRenderBatch).batch.bufferCount = c.batch.bufferCount := by
  unfold Ctx.drawRenderBatch RenderBatch.drawReset
  dsimp only
  split <;> rfl

theorem drawRenderBatch_closedCalls (c : Ctx) :
    (c.drawRenderBatch).batch.closedCalls =
      if 0 < c.vertexCounter then [] else c.batch.closedCalls := by
  unfold Ctx.drawRenderBatch RenderBatch.drawReset
  dsimp only
  split <;> rfl

theorem drawRenderBatch_openCall (c : Ctx) :
    (c.drawRenderBatch).batch.openCall =
      if 0 < c.vertexCounter then defaultDrawCall c.defaultTextureId
      else c.batch.openCall := by
  unfold Ctx.drawRenderBatch RenderBatch.drawReset
  dsimp only
  split <;> rfl

theorem drawRenderBatch_currentBuffer (c : Ctx) :
    (c.drawRenderBatch).batch.currentBuffer =
      if c.batch.bufferCount ≤ c.batch.currentBuffer + 1 then 0
      else c.batch.currentBuffer + 1 := by
  unfold Ctx.drawRenderBatch RenderBatch.drawReset
  dsimp only
  split <;> rfl

@[simp] theorem bufferCapacity_drawRenderBatch (c : Ctx) :
    bufferCapacity c.drawRenderBatch = bufferCapacity c := by
  unfold bufferCapacity
  rw [drawRenderBatch_elementCount]

theorem checkRenderBatchLimit_of_overflow (c : Ctx) (v : Nat)
    (h : bufferCapacity c ≤ c.vertexCounter + v) :
    c.checkRenderBatchLimit v =
      (true, { c.drawRenderBatch with batch := { (c.drawRenderBatch).batch with openCall :=
        { (c.drawRenderBatch).batch.openCall with
            mode := c.batch.openCall.mode,
            textureId := c.batch.openCall.textureId } } }) := by
  unfold Ctx.checkRenderBatchLimit
  rw [if_pos h]

theorem checkRenderBatchLimit_of_fit (c : Ctx) (v : Nat)
    (h : c.vertexCounter + v < bufferCapacity c) :
    c.checkRenderBatchLimit v = (false, c) := by
  unfold Ctx.checkRenderBatchLimit
  rw [if_neg (not_le_of_lt h)]

@[simp] theorem writeVertex_vertexCounter (c : Ctx) :
    (c.writeVertex).vertexCounter = c.vertexCounter + 1 := rfl

@[simp] theorem writeVertex_vertexCount (c : Ctx) :
    (c.writeVertex).batch.openCall.vertexCount = c.batch.openCall.vertexCount + 1 := rfl

@[simp] theorem writeVertex_mode (c : Ctx) :
    (c.writeVertex).batch.openCall.mode = c.batch.openCall.mode := rfl

@[simp] theorem writeVertex_flushCount (c : Ctx) :
    (c.writeVertex).flushCount = c.flushCount := rfl

@[simp] theorem writeVertex_closedCalls (c : Ctx) :
    (c.writeVertex).batch.closedCalls = c.batch.closedCalls := rfl

@[simp] theorem writeVertex_writeLog (c : Ctx) :
    (c.writeVertex).writeLog = c.writeLog ++ [c.vertexCounter] := rfl

@[simp] theorem writeVertex_elementCount (c : Ctx) :
    (c.writeVertex).batch.elementCount = c.batch.elementCount := rfl

theorem vertexFlushCheck_of_fit (c : Ctx)
    (h : c.vertexCounter ≤ bufferCapacity c - 4) :
    c.vertexFlushCheck = c := by
  unfold Ctx.vertexFlushCheck
  rw [if_neg (not_lt_of_le h)]

theorem vertexFlushCheck_of_midPrimitive (c : Ctx)
    (h : c.batch.openCall.vertexCount % unitOf c.batch.openCall.mode ≠ 0) :
    c.vertexFlushCheck = c := by
  unfold Ctx.vertexFlushCheck
  split
  · cases hm : c.batch.openCall.mode <;>
      simp only [hm, unitOf] at h ⊢ <;>
      rw [if_neg h]
  · rfl

theorem vertexFlushCheck_of_boundary (c : Ctx)
    (hguard : bufferCapacity c - 4 < c.vertexCounter)
    (hb : c.batch.openCall.vertexCount % unitOf c.batch.openCall.mode = 0) :
    c.vertexFlushCheck = (c.checkRenderBatchLimit (unitOf c.batch.openCall.mode + 1)).2 := by
  unfold Ctx.vertexFlushCheck
  rw [if_pos hguard]
  cases hm : c.batch.openCall.mode <;>
    simp only [hm, unitOf] at hb ⊢ <;>
    rw [if_pos hb]

theorem vertex_of_fit (c : Ctx) (h : c.vertexCounter ≤ bufferCapacity c - 4) :
    c.vertex = c.writeVertex := by
  unfold Ctx.vertex
  rw [vertexFlushCheck_of_fit c h]

theorem vertex_of_midPrimitive (c : Ctx)
    (h : c.batch.openCall.vertexCount % unitOf c.batch.openCall.mode ≠ 0) :
    c.vertex = c.writeVertex := by
  unfold Ctx.vertex
  rw [vertexFlushCheck_of_midPrimitive c h]

theorem vertex_of_boundary (c : Ctx)
    (hguard : bufferCapacity c - 4 < c.vertexCounter)
    (hb : c.batch.openCall.vertexCount % unitOf c.batch.openCall.mode = 0) :
    c.vertex = ((c.checkRenderBatchLimit (unitOf c.batch.openCall.mode + 1)).2).writeVertex := by
  unfold Ctx.vertex
  rw [vertexFlushCheck_of_boundary c hguard hb]

/-! ### C1: stereo draw never terminates -/

theorem renderPass_not_final_eye (d : DrawCall) (rest : List DrawCall) :
    ∀ fuel off, renderPass 0 2 fuel (d :: rest) off = none := by
  intro fuel
  induction fuel with
  | zero => intro off; rfl
  | succ f ih =>
    intro off
    rw [renderPass, if_neg (by decide : ¬ (0 : Nat) = 2 - 1)]
    exact ih _

theorem drawEyesAux_first_eye_none (vc fuel : Nat) (d : DrawCall)
    (rest : List DrawCall) (hvc : 0 < vc) :
    drawEyesAux vc 2 fuel 2 (d :: rest) = none := by
  show drawEyesAux vc 2 fuel (1 + 1) (d :: rest) = none
  rw [drawEyesAux]
  simp only [if_pos hvc, show (2 : Nat) - (1 + 1) = 0 from rfl,
    renderPass_not_final_eye]

theorem renderPass_last_eye (q : List DrawCall) :
    ∀ fuel off, q.length ≤ fuel →
      ∃ off2, renderPass 0 1 fuel q off = some ([], off2) := by
  induction q with
  | nil => intro fuel off _; exact ⟨off, by rw [renderPass]⟩
  | cons d rest ih =>
    intro fuel off h
    match fuel, h with
    | fuel + 1, h =>
      rw [renderPass, if_pos rfl]
      exact ih fuel _ (Nat.le_of_succ_le_succ h)

/-- Sanity check tying the fuel-indexed model of `RenderBatch::Draw` to
the terminating single-eye reset used in the `Context` model: without
stereo rendering, enough fuel drains the whole queue (each iteration
pops) and the function returns, leaving the queue `drawReset` computes. -/
theorem renderBatchDrawFuel_single_eye (vertexCounter defaultTextureId : Nat)
    (q : List DrawCall) (fuel : Nat) (hfuel : q.length ≤ fuel) (hq : q ≠ []) :
    renderBatchDrawFuel fuel vertexCounter false defaultTextureId q =
      some (if 0 < vertexCounter then [defaultDrawCall defaultTextureId] else q) := by
  unfold renderBatchDrawFuel
  simp only [Bool.false_eq_true, if_false]
  show (match drawEyesAux vertexCounter 1 fuel (0 + 1) q with
    | none => none
    | some q2 =>
      some (if q2.length = 0 then [defaultDrawCall defaultTextureId] else q2)) = _
  rw [drawEyesAux]
  by_cases hvc : 0 < vertexCounter
  · rw [if_pos hvc]
    obtain ⟨off2, hoff⟩ := renderPass_last_eye q fuel 0 hfuel
    rw [show (1 : Nat) - (0 + 1) = 0 from rfl, hoff]
    rw [if_pos hvc]
    rfl
  · rw [if_neg hvc, if_neg hvc]
    show (match drawEyesAux vertexCounter 1 fuel 0 q with
      | none => none
      | some q2 =>
        some (if q2.length = 0 then [defaultDrawCall defaultTextureId] else q2)) = some q
    rw [drawEyesAux]
    show some (if q.length = 0 then [defaultDrawCall defaultTextureId] else q) = some q
    rw [if_neg (by simpa using hq : ¬ q.length = 0)]

/-- C1: with stereo rendering enabled (`eyeCount == 2`), at least one
accumulated vertex and a non-empty draw-call queue, `RenderBatch::Draw`
does not terminate: on the first eye the drain loop renders
`drawQueue.front()` but never pops (the pop is guarded by
`eye == eyeCount - 1`), so `!drawQueue.empty()` never becomes false.
No amount of fuel makes the modelled loop reach the end of the function,
refuting the claim that every queued call is rendered once per eye and
the function returns. -/
theorem C1_stereo_draw_never_terminates (q : List DrawCall)
    (vertexCounter defaultTextureId fuel : Nat)
    (hq : q ≠ []) (hvc : 0 < vertexCounter) :
    renderBatchDrawFuel fuel vertexCounter true defaultTextureId q = none := by
  obtain ⟨d, rest, rfl⟩ := List.exists_cons_of_ne_nil hq
  unfold renderBatchDrawFuel
  simp only [eq_self_iff_true, if_true]
  rw [drawEyesAux_first_eye_none vertexCounter fuel d rest hvc]

/-- Witness for C1 at a concrete stereo flush: one queued quad call,
one accumulated vertex, fuel 100. -/
theorem C1_stereo_draw_never_terminates_witness :
    renderBatchDrawFuel 100 1 true 7 [defaultDrawCall 7] = none :=
  C1_stereo_draw_never_terminates [defaultDrawCall 7] 1 7 100 (by decide) (by decide)

/-! ### C5: SetTexture(0) flush condition -/

/-- C5 counterexample: with capacity 8 and `vertexCounter = 5` there is
no room for another 4 vertices (5 + 4 > 8), yet `SetTexture(0)` performs
no flush — the code only flushes when `vertexCounter >= elementCount*4`. -/
theorem C5_counterexample :
    (exMidBuffer.setTexture 0).flushCount = exMidBuffer.flushCount ∧
    bufferCapacity exMidBuffer < exMidBuffer.vertexCounter + 4 := by
  exact ⟨rfl, by decide⟩

/-- C5 (amended): `SetTexture(0)` flushes the batch if and only if the
current buffer is completely full, `vertexCounter >= elementCount*4`
(not merely when fewer than 4 vertex slots remain). -/
theorem C5_sentinel_flush_iff_buffer_full (c : Ctx) :
    (c.setTexture 0).flushCount =
      if bufferCapacity c ≤ c.vertexCounter then c.flushCount + 1
      else c.flushCount := by
  unfold Ctx.setTexture
  rw [if_pos rfl]
  split
  · rfl
  · rfl

/-! ### C7: null batch pointer is rejected -/

/-- C7: `SetRenderBatchActive(nullptr)` surfaces an immediate exception;
it never returns successfully with some silently-substituted batch. -/
theorem C7_null_batch_pointer_rejected (defaultBatch : RenderBatch) (c : Ctx) :
    Ctx.setRenderBatchActive none defaultBatch c =
      Except.error "Context::SetRenderBatchActive: pointer to given batch is null" ∧
    ∀ c2 : Ctx, Ctx.setRenderBatchActive none defaultBatch c ≠ Except.ok c2 := by
  refine ⟨rfl, ?_⟩
  intro c2 h
  exact Except.noConfusion h

/-! ### Counterexample computations -/

/-- C2 counterexample: 7 lines (14 vertices) into buffers of capacity
`2*4 = 8` trigger 2 internal flushes (each generation holds at most
`capacity - 2` line vertices because of the "+1 for security" margin in
`Vertex`), while the claimed formula `floor(14 / 8)` gives 1. -/
theorem C2_counterexample :
    (runLines (initCtx 3 2 256 1) 7).flushCount ≠
      2 * 7 / bufferCapacity (initCtx 3 2 256 1) := by
  decide

/-- C3 counterexample: closing an open Triangles call whose 12 vertices
already end on a multiple-of-4 boundary by switching to Quads sets its
`vertexAlignment` to `4 - 12 % 4 = 4`, not the zero padding the claim
requires for a call already on a suitable boundary. -/
theorem C3_counterexample :
    (exTriangles12.begin .quads).batch.closedCalls.map DrawCall.vertexAlignment = [4] ∧
    (4 : Nat) ≠ 0 := by
  decide

/-- C4 counterexample: an open Triangles call with `vertexCount = 1`
(which satisfies the claim's `vertexCount > 0` and `vertexCount % 4 != 0`)
receives `vertexAlignment = 1` from the `vertexCount < 4` branch, not the
claimed `4 - (1 % 4) = 3`, and the next offset `1 + 1 = 2` is not
divisible by 4. -/
theorem C4_counterexample :
    (exTriangles1.begin .quads).batch.closedCalls.map DrawCall.vertexAlignment = [1] ∧
    (1 : Nat) ≠ 4 - 1 % 4 ∧ (1 + 1) % 4 ≠ 0 := by
  decide

/-- C6 counterexample: `SetTexture(5)` on an empty open call followed by
a flush leaves `vertexCounter == 0` but the single queued call still
carries texture 5, not the default texture 1 — a flush entered with
`vertexCounter == 0` skips the drain and therefore never resets the
queue's call to the default texture. -/
theorem C6_counterexample :
    (((initCtx 3 4 256 1).setTexture 5).drawRenderBatch).batch.openCall.textureId = 5 ∧
    (((initCtx 3 4 256 1).setTexture 5).drawRenderBatch).defaultTextureId = 1 ∧
    (5 : Nat) ≠ 1 := by
  decide

/-! ### C8: internal flush preserves the in-flight mode and texture -/

/-- C8: whenever `CheckRenderBatchLimit` fires with vertices accumulated
(the situation `Vertex` calls it in), the overflow flush is reported and
the open call afterwards has the same mode and texture as before, with
vertex count, alignment and the retired-call queue reset. -/
theorem C8_overflow_flush_preserves_mode_texture (c : Ctx) (v : Nat)
    (hvc : 0 < c.vertexCounter)
    (hover : bufferCapacity c ≤ c.vertexCounter + v) :
    (c.checkRenderBatchLimit v).1 = true ∧
    ((c.checkRenderBatchLimit v).2).batch.openCall.mode = c.batch.openCall.mode ∧
    ((c.checkRenderBatchLimit v).2).batch.openCall.textureId = c.batch.openCall.textureId ∧
    ((c.checkRenderBatchLimit v).2).batch.openCall.vertexCount = 0 ∧
    ((c.checkRenderBatchLimit v).2).batch.openCall.vertexAlignment = 0 ∧
    ((c.checkRenderBatchLimit v).2).batch.closedCalls = [] ∧
    ((c.checkRenderBatchLimit v).2).vertexCounter = 0 := by
  rw [checkRenderBatchLimit_of_overflow c v hover]
  refine ⟨rfl, rfl, rfl, ?_, ?_, ?_, rfl⟩
  · show ((c.drawRenderBatch).batch.openCall).vertexCount = 0
    rw [drawRenderBatch_openCall, if_pos hvc]
    rfl
  · show ((c.drawRenderBatch).batch.openCall).vertexAlignment = 0
    rw [drawRenderBatch_openCall, if_pos hvc]
    rfl
  · show (c.drawRenderBatch).batch.closedCalls = []
    rw [drawRenderBatch_closedCalls, if_pos hvc]

/-- Witness for C8: capacity 4, 3 accumulated vertices, 4 more needed. -/
theorem C8_overflow_flush_preserves_mode_texture_witness :
    (exNearFull.checkRenderBatchLimit 4).1 = true ∧
    ((exNearFull.checkRenderBatchLimit 4).2).batch.openCall.mode = exNearFull.batch.openCall.mode ∧
    ((exNearFull.checkRenderBatchLimit 4).2).batch.openCall.textureId = exNearFull.batch.openCall.textureId ∧
    ((exNearFull.checkRenderBatchLimit 4).2).batch.openCall.vertexCount = 0 ∧
    ((exNearFull.checkRenderBatchLimit 4).2).batch.openCall.vertexAlignment = 0 ∧
    ((exNearFull.checkRenderBatchLimit 4).2).batch.closedCalls = [] ∧
    ((exNearFull.checkRenderBatchLimit 4).2).vertexCounter = 0 :=
  C8_overflow_flush_preserves_mode_texture exNearFull 4 (by decide) (by decide)

/-! ### C9: buffer generation rotation -/

theorem advance_eq_mod (cb n : Nat) (h : cb < n) :
    (if n ≤ cb + 1 then 0 else cb + 1) = (cb + 1) % n := by
  rcases eq_or_lt_of_le (Nat.succ_le_of_lt h) with he | hl
  · rw [if_pos (le_of_eq he.symm), show cb + 1 = n from he, Nat.mod_self]
  · rw [if_neg (not_le_of_lt hl), Nat.mod_eq_of_lt hl]

theorem flush_iterate_currentBuffer (k : Nat) :
    ∀ c : Ctx, c.batch.currentBuffer < c.batch.bufferCount →
      (Ctx.drawRenderBatch^[k] c).batch.currentBuffer =
        (c.batch.currentBuffer + k) % c.batch.bufferCount ∧
      (Ctx.drawRenderBatch^[k] c).batch.bufferCount = c.batch.bufferCount ∧
      (Ctx.drawRenderBatch^[k] c).batch.currentBuffer < c.batch.bufferCount := by
  induction k with
  | zero =>
    intro c h
    exact ⟨(Nat.mod_eq_of_lt h).symm, rfl, h⟩
  | succ k ih =>
    intro c h
    rw [Function.iterate_succ_apply]
    have hbc : (c.drawRenderBatch).batch.bufferCount = c.batch.bufferCount :=
      drawRenderBatch_bufferCount c
    have hpos : 0 < c.batch.bufferCount := lt_of_le_of_lt (Nat.zero_le _) h
    have hstep : (c.drawRenderBatch).batch.currentBuffer =
        (c.batch.currentBuffer + 1) % c.batch.bufferCount := by
      rw [drawRenderBatch_currentBuffer]
      exact advance_eq_mod _ _ h
    have hlt2 : (c.drawRenderBatch).batch.currentBuffer <
        (c.drawRenderBatch).batch.bufferCount := by
      rw [hstep, hbc]
      exact Nat.mod_lt _ hpos
    obtain ⟨h1, h2, h3⟩ := ih c.drawRenderBatch hlt2
    refine ⟨?_, by rw [h2, hbc], ?_⟩
    · rw [h1, hstep, hbc, Nat.mod_add_mod]
      congr 1
      omega
    · rw [← hbc]
      exact h3

/-- C9: every flush advances `currentBuffer` by exactly one modulo
`bufferCount` and keeps it inside `[0, bufferCount)`; iterated flushes
therefore visit the generations `0, 1, 2, 0, 1, ...` in strict
round-robin order, independent of how many vertices each flush
contained (the advance in `RenderBatch::Draw` never reads the counters). -/
theorem C9_generation_round_robin (c : Ctx) (k : Nat)
    (h : c.batch.currentBuffer < c.batch.bufferCount) :
    (c.drawRenderBatch).batch.currentBuffer =
      (c.batch.currentBuffer + 1) % c.batch.bufferCount ∧
    (c.drawRenderBatch).batch.currentBuffer < c.batch.bufferCount ∧
    (Ctx.drawRenderBatch^[k] c).batch.currentBuffer =
      (c.batch.currentBuffer + k) % c.batch.bufferCount := by
  obtain ⟨h1, h2, h3⟩ := flush_iterate_currentBuffer k c h
  have hpos : 0 < c.batch.bufferCount := lt_of_le_of_lt (Nat.zero_le _) h
  refine ⟨?_, ?_, h1⟩
  · rw [drawRenderBatch_currentBuffer]
    exact advance_eq_mod _ _ h
  · rw [drawRenderBatch_currentBuffer, advance_eq_mod _ _ h]
    exact Nat.mod_lt _ hpos

/-! ### C3 and C4: alignment on a mode switch -/

theorem computeAlignment_complete (d : DrawCall)
    (h : unitOf d.mode ∣ d.vertexCount) (hpos : 0 < d.vertexCount) :
    (d.vertexCount + computeAlignment d) % 4 = 0 ∧
    (computeAlignment d = (4 - d.vertexCount % 4) % 4 ∨
      (d.mode = .triangles ∧ d.vertexCount % 4 = 0 ∧ computeAlignment d = 4)) := by
  cases hm : d.mode
  case lines =>
    rw [hm] at h
    simp only [unitOf] at h
    have ha : computeAlignment d =
        if d.vertexCount < 4 then d.vertexCount else d.vertexCount % 4 := by
      unfold computeAlignment
      rw [hm]
    rw [ha]
    refine ⟨?_, Or.inl ?_⟩ <;> split <;> omega
  case triangles =>
    rw [hm] at h
    simp only [unitOf] at h
    have ha : computeAlignment d =
        if d.vertexCount < 4 then 1 else 4 - d.vertexCount % 4 := by
      unfold computeAlignment
      rw [hm]
    rw [ha]
    by_cases h4 : d.vertexCount < 4
    · rw [if_pos h4]
      exact ⟨by omega, Or.inl (by omega)⟩
    · rw [if_neg h4]
      by_cases hm4 : d.vertexCount % 4 = 0
      · exact ⟨by omega, Or.inr ⟨rfl, hm4, by omega⟩⟩
      · exact ⟨by omega, Or.inl (by omega)⟩
  case quads =>
    rw [hm] at h
    simp only [unitOf] at h
    have ha : computeAlignment d = 0 := by
      unfold computeAlignment
      rw [hm]
    rw [ha]
    exact ⟨by omega, Or.inl (by omega)⟩

theorem begin_close_no_overflow (c : Ctx) (m : DrawMode)
    (hm : c.batch.openCall.mode ≠ m)
    (hcount : 0 < c.batch.openCall.vertexCount)
    (hcap : c.vertexCounter + computeAlignment c.batch.openCall < bufferCapacity c)
    (hlimit : drawCounter c + 1 < c.drawCallsLimit) :
    (c.begin m).batch.closedCalls =
      c.batch.closedCalls ++
        [{ c.batch.openCall with vertexAlignment := computeAlignment c.batch.openCall }] ∧
    (c.begin m).vertexCounter = c.vertexCounter + computeAlignment c.batch.openCall ∧
    (c.begin m).batch.openCall =
      { mode := m, vertexCount := 0, vertexAlignment := 0,
        textureId := c.defaultTextureId } := by
  have hclose : c.closeCurrentCall =
      ((c.setAlignment (computeAlignment c.batch.openCall)).pushNewCall
        (computeAlignment c.batch.openCall)) := by
    unfold Ctx.closeCurrentCall
    rw [if_pos hcount, checkRenderBatchLimit_of_fit]
    · rfl
    · exact hcap
  have hcnt : drawCounter c.closeCurrentCall = drawCounter c + 1 := by
    rw [hclose]
    unfold drawCounter Ctx.pushNewCall Ctx.setAlignment
    simp
  have hql : c.closeCurrentCall.queueLimitFlush = c.closeCurrentCall := by
    unfold Ctx.queueLimitFlush
    rw [if_neg]
    rw [hcnt, hclose]
    show ¬ c.drawCallsLimit ≤ drawCounter c + 1
    exact not_le_of_lt hlimit
  unfold Ctx.begin
  rw [if_pos hm, hql, hclose]
  exact ⟨rfl, rfl, rfl⟩

/-- C3 (amended): when `Begin(mode)` with a different mode closes an open
call holding complete primitives, the stored `vertexAlignment` depends
only on the closing call's own mode and count and pads its span to the
quad-index boundary of 4 (`(4 - vertexCount % 4) % 4`), with one
exception: a Triangles call whose count is already a multiple of 4
receives alignment 4 rather than the minimal 0.  The next call's data
then begins `vertexAlignment` vertices later, and the closing call's
span plus padding is a multiple of 4. -/
theorem C3_mode_switch_alignment_amended (c : Ctx) (m : DrawMode)
    (hm : c.batch.openCall.mode ≠ m)
    (hcomplete : unitOf c.batch.openCall.mode ∣ c.batch.openCall.vertexCount)
    (hcount : 0 < c.batch.openCall.vertexCount)
    (hcap : c.vertexCounter + computeAlignment c.batch.openCall < bufferCapacity c)
    (hlimit : drawCounter c + 1 < c.drawCallsLimit) :
    ∃ a : Nat,
      ((c.begin m).batch.closedCalls).getLast? =
        some { c.batch.openCall with vertexAlignment := a } ∧
      (c.begin m).vertexCounter = c.vertexCounter + a ∧
      (c.batch.openCall.vertexCount + a) % 4 = 0 ∧
      (a = (4 - c.batch.openCall.vertexCount % 4) % 4 ∨
        (c.batch.openCall.mode = .triangles ∧
          c.batch.openCall.vertexCount % 4 = 0 ∧ a = 4)) := by
  obtain ⟨h1, h2, _⟩ := begin_close_no_overflow c m hm hcount hcap hlimit
  obtain ⟨g1, g2⟩ := computeAlignment_complete c.batch.openCall hcomplete hcount
  refine ⟨computeAlignment c.batch.openCall, ?_, h2, g1, g2⟩
  rw [h1, List.getLast?_concat]

/-- Witness for C3 (amended): closing a 12-vertex Triangles call by
switching to Quads. -/
theorem C3_mode_switch_alignment_amended_witness :
    ∃ a : Nat,
      ((exTriangles12.begin .quads).batch.closedCalls).getLast? =
        some { exTriangles12.batch.openCall with vertexAlignment := a } ∧
      (exTriangles12.begin .quads).vertexCounter = exTriangles12.vertexCounter + a ∧
      (exTriangles12.batch.openCall.vertexCount + a) % 4 = 0 ∧
      (a = (4 - exTriangles12.batch.openCall.vertexCount % 4) % 4 ∨
        (exTriangles12.batch.openCall.mode = .triangles ∧
          exTriangles12.batch.openCall.vertexCount % 4 = 0 ∧ a = 4)) :=
  C3_mode_switch_alignment_amended exTriangles12 .quads (by decide) (by decide)
    (by decide) (by decide) (by decide)

/-- C4 (amended): for an open Triangles call with `vertexCount >= 3` and
`vertexCount % 4 != 0`, switching to Quads sets the call's
`vertexAlignment` to `4 - (vertexCount % 4)` (for `vertexCount < 3`, i.e.
an incomplete triangle, the code uses the `< 4` branch and stores 1
instead), the next call's vertices begin `vertexAlignment` slots later,
and the padded span is a multiple of 4. -/
theorem C4_triangles_to_quads_alignment_amended (c : Ctx)
    (hmode : c.batch.openCall.mode = .triangles)
    (h3 : 3 ≤ c.batch.openCall.vertexCount)
    (h4 : c.batch.openCall.vertexCount % 4 ≠ 0)
    (hcap : c.vertexCounter + computeAlignment c.batch.openCall < bufferCapacity c)
    (hlimit : drawCounter c + 1 < c.drawCallsLimit) :
    ((c.begin .quads).batch.closedCalls).getLast? =
      some { c.batch.openCall with
        vertexAlignment := 4 - c.batch.openCall.vertexCount % 4 } ∧
    (c.begin .quads).vertexCounter =
      c.vertexCounter + (4 - c.batch.openCall.vertexCount % 4) ∧
    (c.batch.openCall.vertexCount + (4 - c.batch.openCall.vertexCount % 4)) % 4 = 0 := by
  have hm : c.batch.openCall.mode ≠ .quads := by
    rw [hmode]
    intro hfalse
    exact DrawMode.noConfusion hfalse
  have hcount : 0 < c.batch.openCall.vertexCount := by omega
  have ha : computeAlignment c.batch.openCall =
      4 - c.batch.openCall.vertexCount % 4 := by
    unfold computeAlignment
    rw [hmode]
    show (if c.batch.openCall.vertexCount < 4 then 1
      else 4 - c.batch.openCall.vertexCount % 4) = _
    split
    · omega
    · rfl
  obtain ⟨h1, h2, _⟩ := begin_close_no_overflow c .quads hm hcount hcap hlimit
  refine ⟨?_, ?_, by omega⟩
  · rw [h1, List.getLast?_concat, ha]
  · rw [h2, ha]

/-- Witness for C4 (amended): a 6-vertex Triangles call switched to
Quads receives alignment 2 and the next offset 8. -/
theorem C4_triangles_to_quads_alignment_amended_witness :
    ((exTriangles6.begin .quads).batch.closedCalls).getLast? =
      some { exTriangles6.batch.openCall with
        vertexAlignment := 4 - exTriangles6.batch.openCall.vertexCount % 4 } ∧
    (exTriangles6.begin .quads).vertexCounter =
      exTriangles6.vertexCounter + (4 - exTriangles6.batch.openCall.vertexCount % 4) ∧
    (exTriangles6.batch.openCall.vertexCount +
      (4 - exTriangles6.batch.openCall.vertexCount % 4)) % 4 = 0 :=
  C4_triangles_to_quads_alignment_amended exTriangles6 (by decide) (by decide)
    (by decide) (by decide) (by decide)

/-! ### Condition-resolution lemmas for `CheckRenderBatchLimit` -/

theorem checkRenderBatchLimit_fst_of_fit (c : Ctx) (v : Nat)
    (h : c.vertexCounter + v < bufferCapacity c) :
    (c.checkRenderBatchLimit v).1 = false := by
  rw [checkRenderBatchLimit_of_fit c v h]

theorem checkRenderBatchLimit_snd_of_fit (c : Ctx) (v : Nat)
    (h : c.vertexCounter + v < bufferCapacity c) :
    (c.checkRenderBatchLimit v).2 = c := by
  rw [checkRenderBatchLimit_of_fit c v h]

theorem checkRenderBatchLimit_fst_of_overflow (c : Ctx) (v : Nat)
    (h : bufferCapacity c ≤ c.vertexCounter + v) :
    (c.checkRenderBatchLimit v).1 = true := by
  rw [checkRenderBatchLimit_of_overflow c v h]

/-! ### Configuration preservation -/

theorem drawRenderBatch_sameConfig (c : Ctx) : SameConfig c.drawRenderBatch c :=
  ⟨rfl, rfl, drawRenderBatch_elementCount c, drawRenderBatch_bufferCount c⟩

theorem checkRenderBatchLimit_sameConfig (c : Ctx) (v : Nat) :
    SameConfig (c.checkRenderBatchLimit v).2 c := by
  unfold Ctx.checkRenderBatchLimit
  split
  · exact ⟨rfl, rfl, drawRenderBatch_elementCount c, drawRenderBatch_bufferCount c⟩
  · exact sameConfig_refl c

theorem writeVertex_sameConfig (c : Ctx) : SameConfig c.writeVertex c :=
  ⟨rfl, rfl, rfl, rfl⟩

theorem setAlignment_sameConfig (c : Ctx) (a : Nat) :
    SameConfig (c.setAlignment a) c :=
  ⟨rfl, rfl, rfl, rfl⟩

theorem pushNewCall_sameConfig (c : Ctx) (a : Nat) :
    SameConfig (c.pushNewCall a) c :=
  ⟨rfl, rfl, rfl, rfl⟩

theorem retargetMode_sameConfig (c : Ctx) (m : DrawMode) :
    SameConfig (Ctx.retargetMode m c) c :=
  ⟨rfl, rfl, rfl, rfl⟩

theorem retargetTexture_sameConfig (c : Ctx) (id : Nat) :
    SameConfig (Ctx.retargetTexture id c) c :=
  ⟨rfl, rfl, rfl, rfl⟩

theorem vertexFlushCheck_sameConfig (c : Ctx) : SameConfig c.vertexFlushCheck c := by
  unfold Ctx.vertexFlushCheck
  split
  · split <;> split <;>
      first
        | exact checkRenderBatchLimit_sameConfig _ _
        | exact sameConfig_refl c
  · exact sameConfig_refl c

theorem vertex_sameConfig (c : Ctx) : SameConfig c.vertex c := by
  unfold Ctx.vertex
  exact sameConfig_trans (writeVertex_sameConfig _) (vertexFlushCheck_sameConfig c)

theorem closeCurrentCall_sameConfig (c : Ctx) : SameConfig c.closeCurrentCall c := by
  unfold Ctx.closeCurrentCall
  split
  · split
    · exact sameConfig_trans (pushNewCall_sameConfig _ _)
        (sameConfig_trans (checkRenderBatchLimit_sameConfig _ _)
          (setAlignment_sameConfig c _))
    · exact sameConfig_trans (checkRenderBatchLimit_sameConfig _ _)
        (setAlignment_sameConfig c _)
  · exact sameConfig_refl c

theorem queueLimitFlush_sameConfig (c : Ctx) : SameConfig c.queueLimitFlush c := by
  unfold Ctx.queueLimitFlush
  split
  · exact drawRenderBatch_sameConfig c
  · exact sameConfig_refl c

theorem begin_sameConfig (c : Ctx) (m : DrawMode) : SameConfig (c.begin m) c := by
  unfold Ctx.begin
  split
  · exact sameConfig_trans (retargetMode_sameConfig _ _)
      (sameConfig_trans (queueLimitFlush_sameConfig _)
        (closeCurrentCall_sameConfig c))
  · exact sameConfig_refl c

theorem setTexture_sameConfig (c : Ctx) (id : Nat) : SameConfig (c.setTexture id) c := by
  unfold Ctx.setTexture
  split
  · split
    · exact drawRenderBatch_sameConfig c
    · exact sameConfig_refl c
  · split
    · exact sameConfig_trans (retargetTexture_sameConfig _ _)
        (sameConfig_trans (queueLimitFlush_sameConfig _)
          (closeCurrentCall_sameConfig c))
    · exact sameConfig_refl c

theorem step_sameConfig (c : Ctx) (op : Op) : SameConfig (c.step op) c := by
  cases op
  case beginMode m => exact begin_sameConfig c m
  case vertex => exact vertex_sameConfig c
  case setTexture id => exact setTexture_sameConfig c id
  case flush => exact drawRenderBatch_sameConfig c

theorem run_sameConfig (ops : List Op) : ∀ c : Ctx, SameConfig (c.run ops) c := by
  induction ops with
  | nil => intro c; exact sameConfig_refl c
  | cons op rest ih =>
    intro c
    show SameConfig ((c.step op).run rest) c
    exact sameConfig_trans (ih (c.step op)) (step_sameConfig c op)

/-! ### The reachability invariant and its preservation -/

theorem reachInv_drawRenderBatch (c : Ctx) (h : ReachInv c) :
    ReachInv c.drawRenderBatch := by
  obtain ⟨h1, h2, h3⟩ := h
  have hcb : (c.drawRenderBatch).batch.currentBuffer <
      (c.drawRenderBatch).batch.bufferCount := by
    rw [drawRenderBatch_currentBuffer, drawRenderBatch_bufferCount,
      advance_eq_mod _ _ h3]
    exact Nat.mod_lt _ (lt_of_le_of_lt (Nat.zero_le _) h3)
  by_cases hvc : 0 < c.vertexCounter
  · refine ⟨?_, ?_, hcb⟩
    · rw [drawRenderBatch_openCall, if_pos hvc]
      exact Nat.le_refl 0
    · rw [drawRenderBatch_closedCalls, if_pos hvc]
      exact Or.inl rfl
  · have hvc0 : c.vertexCounter = 0 := by omega
    refine ⟨?_, ?_, hcb⟩
    · rw [drawRenderBatch_openCall, if_neg hvc]
      show c.batch.openCall.vertexCount ≤ 0
      omega
    · rw [drawRenderBatch_closedCalls, if_neg hvc]
      rcases h2 with h2 | h2
      · exact Or.inl h2
      · omega

theorem reachInv_checkRenderBatchLimit (c : Ctx) (v : Nat) (h : ReachInv c) :
    ReachInv (c.checkRenderBatchLimit v).2 := by
  unfold Ctx.checkRenderBatchLimit
  split
  · exact reachInv_drawRenderBatch c h
  · exact h

theorem reachInv_writeVertex (c : Ctx) (h : ReachInv c) : ReachInv c.writeVertex := by
  obtain ⟨h1, h2, h3⟩ := h
  refine ⟨?_, Or.inr (Nat.succ_pos _), h3⟩
  show c.batch.openCall.vertexCount + 1 ≤ c.vertexCounter + 1
  omega

theorem reachInv_vertexFlushCheck (c : Ctx) (h : ReachInv c) :
    ReachInv c.vertexFlushCheck := by
  unfold Ctx.vertexFlushCheck
  split
  · split <;> split <;>
      first
        | exact reachInv_checkRenderBatchLimit _ _ h
        | exact h
  · exact h

theorem reachInv_vertex (c : Ctx) (h : ReachInv c) : ReachInv c.vertex := by
  unfold Ctx.vertex
  exact reachInv_writeVertex _ (reachInv_vertexFlushCheck c h)

theorem reachInv_setAlignment (c : Ctx) (a : Nat) (h : ReachInv c) :
    ReachInv (c.setAlignment a) := h

theorem reachInv_pushNewCall (c : Ctx) (a : Nat) (h : ReachInv c)
    (hvc : 0 < c.vertexCounter) : ReachInv (c.pushNewCall a) := by
  obtain ⟨h1, h2, h3⟩ := h
  refine ⟨Nat.zero_le _, Or.inr ?_, h3⟩
  show 0 < c.vertexCounter + a
  omega

theorem reachInv_closeCurrentCall (c : Ctx) (h : ReachInv c) :
    ReachInv c.closeCurrentCall := by
  unfold Ctx.closeCurrentCall
  by_cases hcount : 0 < c.batch.openCall.vertexCount
  · rw [if_pos hcount]
    rcases Nat.lt_or_ge (c.vertexCounter + computeAlignment c.batch.openCall)
        (bufferCapacity c) with hfit | hover
    · rw [checkRenderBatchLimit_fst_of_fit
          (c.setAlignment (computeAlignment c.batch.openCall)) _ hfit,
        checkRenderBatchLimit_snd_of_fit
          (c.setAlignment (computeAlignment c.batch.openCall)) _ hfit, if_pos rfl]
      exact reachInv_pushNewCall _ _ (reachInv_setAlignment c _ h)
        (lt_of_lt_of_le hcount h.1)
    · rw [checkRenderBatchLimit_fst_of_overflow
          (c.setAlignment (computeAlignment c.batch.openCall)) _ hover,
        if_neg (by decide : ¬ (true = false))]
      exact reachInv_checkRenderBatchLimit _ _ (reachInv_setAlignment c _ h)
  · rw [if_neg hcount]
    exact h

theorem reachInv_queueLimitFlush (c : Ctx) (h : ReachInv c) :
    ReachInv c.queueLimitFlush := by
  unfold Ctx.queueLimitFlush
  split
  · exact reachInv_drawRenderBatch c h
  · exact h

theorem reachInv_retargetMode (c : Ctx) (m : DrawMode) (h : ReachInv c) :
    ReachInv (Ctx.retargetMode m c) :=
  ⟨Nat.zero_le _, h.2.1, h.2.2⟩

theorem reachInv_retargetTexture (c : Ctx) (id : Nat) (h : ReachInv c) :
    ReachInv (Ctx.retargetTexture id c) :=
  ⟨Nat.zero_le _, h.2.1, h.2.2⟩

theorem reachInv_begin (c : Ctx) (m : DrawMode) (h : ReachInv c) :
    ReachInv (c.begin m) := by
  unfold Ctx.begin
  split
  · exact reachInv_retargetMode _ m
      (reachInv_queueLimitFlush _ (reachInv_closeCurrentCall c h))
  · exact h

theorem reachInv_setTexture (c : Ctx) (id : Nat) (h : ReachInv c) :
    ReachInv (c.setTexture id) := by
  unfold Ctx.setTexture
  split
  · split
    · exact reachInv_drawRenderBatch c h
    · exact h
  · split
    · exact reachInv_retargetTexture _ id
        (reachInv_queueLimitFlush _ (reachInv_closeCurrentCall c h))
    · exact h

theorem reachInv_step (c : Ctx) (op : Op) (h : ReachInv c) : ReachInv (c.step op) := by
  cases op
  case beginMode m => exact reachInv_begin c m h
  case vertex => exact reachInv_vertex c h
  case setTexture id => exact reachInv_setTexture c id h
  case flush => exact reachInv_drawRenderBatch c h

theorem reachInv_run (ops : List Op) : ∀ c : Ctx, ReachInv c → ReachInv (c.run ops) := by
  induction ops with
  | nil => intro c h; exact h
  | cons op rest ih =>
    intro c h
    show ReachInv ((c.step op).run rest)
    exact ih _ (reachInv_step c op h)

theorem reachInv_initCtx (numBuffers bufferElements drawCallsLimit defaultTextureId : Nat)
    (h : 0 < numBuffers) :
    ReachInv (initCtx numBuffers bufferElements drawCallsLimit defaultTextureId) :=
  ⟨Nat.le_refl 0, Or.inl rfl, h⟩

/-! ### The buffer-safety invariant and its preservation -/

theorem checkRenderBatchLimit_overflow_fields (c : Ctx) (v : Nat)
    (hover : bufferCapacity c ≤ c.vertexCounter + v) (hvc : 0 < c.vertexCounter) :
    ((c.checkRenderBatchLimit v).2).vertexCounter = 0 ∧
    ((c.checkRenderBatchLimit v).2).batch.openCall.vertexCount = 0 ∧
    ((c.checkRenderBatchLimit v).2).batch.openCall.mode = c.batch.openCall.mode ∧
    ((c.checkRenderBatchLimit v).2).writeLog = c.writeLog ∧
    bufferCapacity ((c.checkRenderBatchLimit v).2) = bufferCapacity c := by
  rw [checkRenderBatchLimit_of_overflow c v hover]
  refine ⟨rfl, ?_, rfl, rfl, ?_⟩
  · show ((c.drawRenderBatch).batch.openCall).vertexCount = 0
    rw [drawRenderBatch_openCall, if_pos hvc]
    rfl
  · show bufferCapacity c.drawRenderBatch = bufferCapacity c
    rw [bufferCapacity_drawRenderBatch]

theorem unitOf_ge_two (m : DrawMode) : 2 ≤ unitOf m := by
  cases m <;> decide

theorem unitOf_le_four (m : DrawMode) : unitOf m ≤ 4 := by
  cases m <;> decide

theorem midInv_writeVertex_aux (c : Ctx) (h4c : 4 ≤ bufferCapacity c)
    (hwl : ∀ x ∈ c.writeLog, x < bufferCapacity c)
    (hb : c.vertexCounter ≤ bufferCapacity c - 4 +
      c.batch.openCall.vertexCount % unitOf c.batch.openCall.mode) :
    MidInv c.writeVertex := by
  have hu2 : 2 ≤ unitOf c.batch.openCall.mode := unitOf_ge_two _
  have hu4 : unitOf c.batch.openCall.mode ≤ 4 := unitOf_le_four _
  have hru : c.batch.openCall.vertexCount % unitOf c.batch.openCall.mode <
      unitOf c.batch.openCall.mode := Nat.mod_lt _ (by omega)
  have hwlt : c.vertexCounter < bufferCapacity c := by omega
  have goal3 : (c.batch.openCall.vertexCount + 1) % unitOf c.batch.openCall.mode ≠ 0 →
      c.vertexCounter + 1 ≤ bufferCapacity c - 4 +
        (c.batch.openCall.vertexCount + 1) % unitOf c.batch.openCall.mode := by
    intro hr
    have hmod : (c.batch.openCall.vertexCount + 1) % unitOf c.batch.openCall.mode =
        (c.batch.openCall.vertexCount % unitOf c.batch.openCall.mode + 1) %
          unitOf c.batch.openCall.mode := (Nat.mod_add_mod _ _ _).symm
    by_cases hs : c.batch.openCall.vertexCount % unitOf c.batch.openCall.mode + 1 =
        unitOf c.batch.openCall.mode
    · exfalso
      apply hr
      rw [hmod, hs, Nat.mod_self]
    · have hlt : c.batch.openCall.vertexCount % unitOf c.batch.openCall.mode + 1 <
          unitOf c.batch.openCall.mode := by omega
      rw [hmod, Nat.mod_eq_of_lt hlt]
      omega
  have goal4 : ∀ x ∈ c.writeLog ++ [c.vertexCounter], x < bufferCapacity c := by
    intro x hx
    rcases List.mem_append.mp hx with hx | hx
    · exact hwl x hx
    · rw [List.mem_singleton.mp hx]
      exact hwlt
  refine ⟨?_, ?_, ?_, ?_⟩
  · show 4 ≤ bufferCapacity c
    exact h4c
  · show c.vertexCounter + 1 ≤ bufferCapacity c
    omega
  · show (c.batch.openCall.vertexCount + 1) % unitOf c.batch.openCall.mode ≠ 0 →
      c.vertexCounter + 1 ≤ bufferCapacity c - 4 +
        (c.batch.openCall.vertexCount + 1) % unitOf c.batch.openCall.mode
    exact goal3
  · show ∀ x ∈ c.writeLog ++ [c.vertexCounter], x < bufferCapacity c
    exact goal4

theorem midInv_vertex (c : Ctx) (h : MidInv c) : MidInv c.vertex := by
  obtain ⟨h4c, hvc, hmid, hwl⟩ := h
  by_cases hr : c.batch.openCall.vertexCount % unitOf c.batch.openCall.mode = 0
  · by_cases hg : bufferCapacity c - 4 < c.vertexCounter
    · rw [vertex_of_boundary c hg hr]
      have hu2 : 2 ≤ unitOf c.batch.openCall.mode := unitOf_ge_two _
      have hover : bufferCapacity c ≤
          c.vertexCounter + (unitOf c.batch.openCall.mode + 1) := by omega
      have hvc0 : 0 < c.vertexCounter := by omega
      obtain ⟨f1, f2, f3, f4, f5⟩ :=
        checkRenderBatchLimit_overflow_fields c _ hover hvc0
      apply midInv_writeVertex_aux
      · rw [f5]
        exact h4c
      · intro x hx
        rw [f4] at hx
        rw [f5]
        exact hwl x hx
      · rw [f1]
        exact Nat.zero_le _
    · have hg2 : c.vertexCounter ≤ bufferCapacity c - 4 := by omega
      rw [vertex_of_fit c hg2]
      exact midInv_writeVertex_aux c h4c hwl (by omega)
  · rw [vertex_of_midPrimitive c hr]
    exact midInv_writeVertex_aux c h4c hwl (hmid hr)

theorem midInv_vertex_iterate (n : Nat) :
    ∀ c : Ctx, MidInv c → MidInv (Ctx.vertex^[n] c) := by
  induction n with
  | zero => intro c h; exact h
  | succ n ih =>
    intro c h
    rw [Function.iterate_succ_apply]
    exact ih _ (midInv_vertex c h)

theorem midInv_drawRenderBatch (c : Ctx) (h : MidInv c) : MidInv c.drawRenderBatch := by
  obtain ⟨h4c, hvc, hmid, hwl⟩ := h
  refine ⟨?_, ?_, ?_, ?_⟩
  · rw [bufferCapacity_drawRenderBatch]
    exact h4c
  · exact Nat.zero_le _
  · intro _
    exact Nat.zero_le _
  · intro x hx
    rw [bufferCapacity_drawRenderBatch]
    exact hwl x hx

theorem midInv_checkRenderBatchLimit (c : Ctx) (v : Nat) (h : MidInv c) :
    MidInv (c.checkRenderBatchLimit v).2 := by
  unfold Ctx.checkRenderBatchLimit
  split
  · obtain ⟨g1, g2, g3, g4⟩ := midInv_drawRenderBatch c h
    refine ⟨g1, g2, ?_, g4⟩
    intro _
    exact Nat.zero_le _
  · exact h

theorem midInv_setAlignment (c : Ctx) (a : Nat) (h : MidInv c) :
    MidInv (c.setAlignment a) := h

theorem midInv_pushNewCall (c : Ctx) (a : Nat) (h : MidInv c)
    (hfit : c.vertexCounter + a < bufferCapacity c) :
    MidInv (c.pushNewCall a) := by
  obtain ⟨h4c, hvc, hmid, hwl⟩ := h
  refine ⟨h4c, ?_, ?_, hwl⟩
  · show c.vertexCounter + a ≤ bufferCapacity c
    omega
  · intro hr
    exact absurd (Nat.zero_mod _) hr

theorem midInv_closeCurrentCall (c : Ctx) (h : MidInv c) :
    MidInv c.closeCurrentCall := by
  unfold Ctx.closeCurrentCall
  by_cases hcount : 0 < c.batch.openCall.vertexCount
  · rw [if_pos hcount]
    rcases Nat.lt_or_ge (c.vertexCounter + computeAlignment c.batch.openCall)
        (bufferCapacity c) with hfit | hover
    · rw [checkRenderBatchLimit_fst_of_fit
          (c.setAlignment (computeAlignment c.batch.openCall)) _ hfit,
        checkRenderBatchLimit_snd_of_fit
          (c.setAlignment (computeAlignment c.batch.openCall)) _ hfit, if_pos rfl]
      exact midInv_pushNewCall _ _ (midInv_setAlignment c _ h) hfit
    · rw [checkRenderBatchLimit_fst_of_overflow
          (c.setAlignment (computeAlignment c.batch.openCall)) _ hover,
        if_neg (by decide : ¬ (true = false))]
      exact midInv_checkRenderBatchLimit _ _ (midInv_setAlignment c _ h)
  · rw [if_neg hcount]
    exact h

theorem midInv_queueLimitFlush (c : Ctx) (h : MidInv c) : MidInv c.queueLimitFlush := by
  unfold Ctx.queueLimitFlush
  split
  · exact midInv_drawRenderBatch c h
  · exact h

theorem midInv_retargetMode (c : Ctx) (m : DrawMode) (h : MidInv c) :
    MidInv (Ctx.retargetMode m c) := by
  obtain ⟨h4c, hvc, hmid, hwl⟩ := h
  refine ⟨h4c, hvc, ?_, hwl⟩
  intro hr
  exact absurd (Nat.zero_mod _) hr

theorem midInv_retargetTexture (c : Ctx) (id : Nat) (h : MidInv c) :
    MidInv (Ctx.retargetTexture id c) := by
  obtain ⟨h4c, hvc, hmid, hwl⟩ := h
  refine ⟨h4c, hvc, ?_, hwl⟩
  intro hr
  exact absurd (Nat.zero_mod _) hr

theorem midInv_begin (c : Ctx) (m : DrawMode) (h : MidInv c) : MidInv (c.begin m) := by
  unfold Ctx.begin
  split
  · exact midInv_retargetMode _ m
      (midInv_queueLimitFlush _ (midInv_closeCurrentCall c h))
  · exact h

theorem midInv_setTexture (c : Ctx) (id : Nat) (h : MidInv c) :
    MidInv (c.setTexture id) := by
  unfold Ctx.setTexture
  split
  · split
    · exact midInv_drawRenderBatch c h
    · exact h
  · split
    · exact midInv_retargetTexture _ id
        (midInv_queueLimitFlush _ (midInv_closeCurrentCall c h))
    · exact h

theorem midInv_dstep (c : Ctx) (op : DOp) (h : MidInv c) : MidInv (c.dstep op) := by
  cases op
  case dbegin m => exact midInv_begin c m h
  case dtex id => exact midInv_setTexture c id h
  case dprim => exact midInv_vertex_iterate _ c h

theorem midInv_drun (prog : List DOp) :
    ∀ c : Ctx, MidInv c → MidInv (c.drun prog) := by
  induction prog with
  | nil => intro c h; exact h
  | cons op rest ih =>
    intro c h
    show MidInv ((c.dstep op).drun rest)
    exact ih _ (midInv_dstep c op h)

theorem midInv_initCtx (numBuffers bufferElements drawCallsLimit defaultTextureId : Nat)
    (hel : 1 ≤ bufferElements) :
    MidInv (initCtx numBuffers bufferElements drawCallsLimit defaultTextureId) := by
  refine ⟨?_, ?_, ?_, ?_⟩
  · show 4 ≤ bufferElements * 4
    omega
  · exact Nat.zero_le _
  · intro hr
    exact absurd (Nat.zero_mod _) hr
  · intro x hx
    exact absurd hx (List.not_mem_nil x)

theorem vertex_iterate_sameConfig (n : Nat) :
    ∀ c : Ctx, SameConfig (Ctx.vertex^[n] c) c := by
  induction n with
  | zero => intro c; exact sameConfig_refl c
  | succ n ih =>
    intro c
    rw [Function.iterate_succ_apply]
    exact sameConfig_trans (ih _) (vertex_sameConfig c)

theorem dstep_sameConfig (c : Ctx) (op : DOp) : SameConfig (c.dstep op) c := by
  cases op
  case dbegin m => exact begin_sameConfig c m
  case dtex id => exact setTexture_sameConfig c id
  case dprim => exact vertex_iterate_sameConfig _ c

theorem drun_sameConfig (prog : List DOp) : ∀ c : Ctx, SameConfig (c.drun prog) c := by
  induction prog with
  | nil => intro c; exact sameConfig_refl c
  | cons op rest ih =>
    intro c
    show SameConfig ((c.dstep op).drun rest) c
    exact sameConfig_trans (ih _) (dstep_sameConfig c op)

/-! ### C10: every vertex write is in bounds -/

/-- C10: along any single-threaded call sequence that emits primitives as
complete units between mode or texture switches (2 vertices per line, 3
per triangle, 4 per quad), every CPU-array write performed by `Vertex`
happens at `vertexCounter < 4 * elementCount` of the active buffer, so
the `vertices`, `texcoords` and `colors` stores stay in bounds. -/
theorem C10_vertex_writes_in_bounds
    (numBuffers bufferElements drawCallsLimit defaultTextureId : Nat)
    (prog : List DOp) (x : Nat) (hel : 1 ≤ bufferElements)
    (hx : x ∈ ((initCtx numBuffers bufferElements drawCallsLimit
      defaultTextureId).drun prog).writeLog) :
    x < bufferElements * 4 := by
  have hinv := midInv_drun prog _
    (midInv_initCtx numBuffers bufferElements drawCallsLimit defaultTextureId hel)
  have hcap : bufferCapacity ((initCtx numBuffers bufferElements drawCallsLimit
      defaultTextureId).drun prog) = bufferElements * 4 := by
    rw [sameConfig_bufferCapacity (drun_sameConfig prog _)]
    rfl
  have hb := hinv.2.2.2 x hx
  rw [hcap] at hb
  exact hb

/-- Witness for C10: two quads into a one-quad buffer (forcing an
internal flush); the write at position 3 stays below capacity 4. -/
theorem C10_vertex_writes_in_bounds_witness :
    3 < 1 * 4 :=
  C10_vertex_writes_in_bounds 3 1 256 1 [DOp.dbegin .quads, DOp.dprim, DOp.dprim] 3
    (by decide) (by decide)

/-! ### C2: flush cadence of a pure lines run -/

theorem queueLimitFlush_of_fit (c : Ctx) (h : drawCounter c < c.drawCallsLimit) :
    c.queueLimitFlush = c := by
  unfold Ctx.queueLimitFlush
  rw [if_neg (not_le_of_lt h)]

theorem closeCurrentCall_of_empty (c : Ctx) (h : c.batch.openCall.vertexCount = 0) :
    c.closeCurrentCall = c := by
  unfold Ctx.closeCurrentCall
  rw [if_neg (by omega)]

theorem checkRenderBatchLimit_overflow_more (c : Ctx) (v : Nat)
    (hover : bufferCapacity c ≤ c.vertexCounter + v) (hvc : 0 < c.vertexCounter) :
    ((c.checkRenderBatchLimit v).2).batch.closedCalls = [] ∧
    ((c.checkRenderBatchLimit v).2).flushCount = c.flushCount + 1 ∧
    ((c.checkRenderBatchLimit v).2).batch.elementCount = c.batch.elementCount ∧
    ((c.checkRenderBatchLimit v).2).drawCallsLimit = c.drawCallsLimit ∧
    ((c.checkRenderBatchLimit v).2).batch.openCall.textureId =
      c.batch.openCall.textureId := by
  rw [checkRenderBatchLimit_of_overflow c v hover]
  refine ⟨?_, rfl, drawRenderBatch_elementCount c, rfl, rfl⟩
  show (c.drawRenderBatch).batch.closedCalls = []
  rw [drawRenderBatch_closedCalls, if_pos hvc]

theorem linesInv_base (numBuffers bufferElements drawCallsLimit defaultTextureId : Nat)
    (hlim : 2 ≤ drawCallsLimit) :
    LinesInv bufferElements drawCallsLimit 0
      ((initCtx numBuffers bufferElements drawCallsLimit defaultTextureId).begin .lines) := by
  have hs0 : (initCtx numBuffers bufferElements drawCallsLimit defaultTextureId).begin .lines =
      Ctx.retargetMode .lines
        (initCtx numBuffers bufferElements drawCallsLimit defaultTextureId) := by
    have hmode : (initCtx numBuffers bufferElements drawCallsLimit
        defaultTextureId).batch.openCall.mode ≠ DrawMode.lines := by
      intro hfalse
      exact DrawMode.noConfusion hfalse
    have hdc : drawCounter (initCtx numBuffers bufferElements drawCallsLimit
        defaultTextureId) <
        (initCtx numBuffers bufferElements drawCallsLimit
          defaultTextureId).drawCallsLimit := by
      show (1 : Nat) < drawCallsLimit
      omega
    unfold Ctx.begin
    rw [if_pos hmode]
    rw [closeCurrentCall_of_empty _ rfl, queueLimitFlush_of_fit _ hdc]
  rw [hs0]
  refine ⟨rfl, rfl, rfl, rfl, rfl, rfl, Nat.zero_le _, ?_, ?_⟩
  · show 2 * 0 = 0 * (bufferElements * 4 - 2) + 0
    omega
  · intro h0
    exact absurd h0 (Nat.lt_irrefl 0)

theorem linesInv_step (bufferElements drawCallsLimit k : Nat) (c : Ctx)
    (hel : 1 ≤ bufferElements)
    (hinv : LinesInv bufferElements drawCallsLimit k c) :
    LinesInv bufferElements drawCallsLimit (k + 1) c.linePair ∧
    ((c.vertex).vertex).flushCount = (c.vertex).flushCount := by
  obtain ⟨e1, e2, e3, e4, e5, e6, e7, e8, e9⟩ := hinv
  have hcap : bufferCapacity c = bufferElements * 4 := by
    unfold bufferCapacity
    rw [e1]
  by_cases hend : c.vertexCounter = bufferElements * 4 - 2
  · have hg : bufferCapacity c - 4 < c.vertexCounter := by omega
    have hr : c.batch.openCall.vertexCount % unitOf c.batch.openCall.mode = 0 := by
      rw [e4, e5]
      simp only [unitOf]
      omega
    have hv1 : c.vertex =
        ((c.checkRenderBatchLimit (unitOf c.batch.openCall.mode + 1)).2).writeVertex :=
      vertex_of_boundary c hg hr
    have hover : bufferCapacity c ≤
        c.vertexCounter + (unitOf c.batch.openCall.mode + 1) := by
      have := unitOf_ge_two c.batch.openCall.mode
      omega
    have hvc0 : 0 < c.vertexCounter := by omega
    obtain ⟨f1, f2, f3, f4, f5⟩ :=
      checkRenderBatchLimit_overflow_fields c _ hover hvc0
    obtain ⟨g1, g2, g3, g4, g5⟩ :=
      checkRenderBatchLimit_overflow_more c _ hover hvc0
    have hodd : (c.vertex).batch.openCall.vertexCount %
        unitOf (c.vertex).batch.openCall.mode ≠ 0 := by
      rw [hv1]
      show (((c.checkRenderBatchLimit (unitOf c.batch.openCall.mode + 1)).2).batch.openCall.vertexCount + 1) %
        unitOf ((c.checkRenderBatchLimit (unitOf c.batch.openCall.mode + 1)).2).batch.openCall.mode ≠ 0
      rw [f2, f3, e4]
      simp only [unitOf]
      decide
    have hv2 : (c.vertex).vertex = ((c.vertex)).writeVertex :=
      vertex_of_midPrimitive _ hodd
    have hmul : (c.flushCount + 1) * (bufferElements * 4 - 2) =
        c.flushCount * (bufferElements * 4 - 2) + (bufferElements * 4 - 2) :=
      Nat.succ_mul _ _
    refine ⟨?_, by rw [hv2]; rfl⟩
    show LinesInv bufferElements drawCallsLimit (k + 1) ((c.vertex).vertex)
    rw [hv2, hv1]
    refine ⟨?_, ?_, ?_, ?_, ?_, ?_, ?_, ?_, ?_⟩
    · show ((c.checkRenderBatchLimit (unitOf c.batch.openCall.mode + 1)).2).batch.elementCount =
        bufferElements
      rw [g3, e1]
    · show ((c.checkRenderBatchLimit (unitOf c.batch.openCall.mode + 1)).2).drawCallsLimit =
        drawCallsLimit
      rw [g4, e2]
    · show ((c.checkRenderBatchLimit (unitOf c.batch.openCall.mode + 1)).2).batch.closedCalls = []
      exact g1
    · show ((c.checkRenderBatchLimit (unitOf c.batch.openCall.mode + 1)).2).batch.openCall.mode =
        DrawMode.lines
      rw [f3, e4]
    · show ((c.checkRenderBatchLimit (unitOf c.batch.openCall.mode + 1)).2).batch.openCall.vertexCount + 1 + 1 =
        ((c.checkRenderBatchLimit (unitOf c.batch.openCall.mode + 1)).2).vertexCounter + 1 + 1
      rw [f1, f2]
    · show (((c.checkRenderBatchLimit (unitOf c.batch.openCall.mode + 1)).2).vertexCounter + 1 + 1) % 2 = 0
      rw [f1]
    · show ((c.checkRenderBatchLimit (unitOf c.batch.openCall.mode + 1)).2).vertexCounter + 1 + 1 ≤
        bufferElements * 4 - 2
      rw [f1]
      omega
    · show 2 * (k + 1) =
        ((c.checkRenderBatchLimit (unitOf c.batch.openCall.mode + 1)).2).flushCount *
          (bufferElements * 4 - 2) +
        (((c.checkRenderBatchLimit (unitOf c.batch.openCall.mode + 1)).2).vertexCounter + 1 + 1)
      rw [f1, g2]
      omega
    · intro _
      show 0 < ((c.checkRenderBatchLimit (unitOf c.batch.openCall.mode + 1)).2).vertexCounter + 1 + 1
      omega
  · have hfit : c.vertexCounter ≤ bufferCapacity c - 4 := by omega
    have hv1 : c.vertex = c.writeVertex := vertex_of_fit c hfit
    have hodd : (c.vertex).batch.openCall.vertexCount %
        unitOf (c.vertex).batch.openCall.mode ≠ 0 := by
      rw [hv1]
      show (c.batch.openCall.vertexCount + 1) % unitOf c.batch.openCall.mode ≠ 0
      rw [e4, e5]
      simp only [unitOf]
      omega
    have hv2 : (c.vertex).vertex = ((c.vertex)).writeVertex :=
      vertex_of_midPrimitive _ hodd
    refine ⟨?_, by rw [hv2]; rfl⟩
    show LinesInv bufferElements drawCallsLimit (k + 1) ((c.vertex).vertex)
    rw [hv2, hv1]
    refine ⟨e1, e2, e3, e4, ?_, ?_, ?_, ?_, ?_⟩
    · show c.batch.openCall.vertexCount + 1 + 1 = c.vertexCounter + 1 + 1
      omega
    · show (c.vertexCounter + 1 + 1) % 2 = 0
      omega
    · show c.vertexCounter + 1 + 1 ≤ bufferElements * 4 - 2
      omega
    · show 2 * (k + 1) = c.flushCount * (bufferElements * 4 - 2) +
        (c.vertexCounter + 1 + 1)
      omega
    · intro _
      show 0 < c.vertexCounter + 1 + 1
      omega

theorem linesInv_iterate
    (numBuffers bufferElements drawCallsLimit defaultTextureId : Nat)
    (hel : 1 ≤ bufferElements) (hlim : 2 ≤ drawCallsLimit) (k : Nat) :
    LinesInv bufferElements drawCallsLimit k
      (Ctx.linePair^[k]
        ((initCtx numBuffers bufferElements drawCallsLimit defaultTextureId).begin .lines)) := by
  induction k with
  | zero =>
    exact linesInv_base numBuffers bufferElements drawCallsLimit defaultTextureId hlim
  | succ k ih =>
    rw [Function.iterate_succ_apply']
    exact (linesInv_step bufferElements drawCallsLimit k _ hel ih).1

/-- C2 (amended): for `BeginPrimitive(Lines)` followed by N complete
lines with no other flush-forcing event, the internal flush count is
`floor((2N - 1) / (capacity - 2))` — each buffer generation holds only
`capacity - 2` line vertices because `Vertex` checks `2 + 1` vertices
"for security" once the cursor passes `capacity - 4` — not the claimed
`floor(2N / capacity)`; and no flush ever occurs strictly between the two
vertices of a single line (the second vertex of each pair leaves the
flush count unchanged). -/
theorem C2_lines_flush_count_amended
    (numBuffers bufferElements drawCallsLimit defaultTextureId n k : Nat)
    (hel : 1 ≤ bufferElements) (hlim : 2 ≤ drawCallsLimit) :
    (runLines (initCtx numBuffers bufferElements drawCallsLimit defaultTextureId)
        n).flushCount =
      (2 * n - 1) / (bufferElements * 4 - 2) ∧
    ((Ctx.linePair^[k] ((initCtx numBuffers bufferElements drawCallsLimit
        defaultTextureId).begin .lines)).vertex.vertex).flushCount =
      ((Ctx.linePair^[k] ((initCtx numBuffers bufferElements drawCallsLimit
        defaultTextureId).begin .lines)).vertex).flushCount := by
  constructor
  · have hiter := linesInv_iterate numBuffers bufferElements drawCallsLimit
      defaultTextureId hel hlim n
    unfold runLines
    set s := Ctx.linePair^[n]
      ((initCtx numBuffers bufferElements drawCallsLimit defaultTextureId).begin
        .lines) with hs
    obtain ⟨e1, e2, e3, e4, e5, e6, e7, e8, e9⟩ := hiter
    rcases Nat.eq_zero_or_pos n with hn | hn
    · subst hn
      have hM : s.flushCount * (bufferElements * 4 - 2) = 0 ∧ s.vertexCounter = 0 := by
        omega
      have hf0 : s.flushCount = 0 := by
        rcases Nat.mul_eq_zero.mp hM.1 with h | h
        · exact h
        · omega
      rw [hf0, show 2 * 0 - 1 = 0 from rfl, Nat.zero_div]
    · have hvc2 : 2 ≤ s.vertexCounter := by
        have := e9 hn
        omega
      have hPpos : 0 < bufferElements * 4 - 2 := by omega
      have hkey : 2 * n - 1 =
          (s.vertexCounter - 1) + (bufferElements * 4 - 2) * s.flushCount := by
        have hc : s.flushCount * (bufferElements * 4 - 2) =
            (bufferElements * 4 - 2) * s.flushCount := Nat.mul_comm _ _
        omega
      rw [hkey, Nat.add_mul_div_left _ _ hPpos, Nat.div_eq_of_lt (by omega),
        Nat.zero_add]
  · exact (linesInv_step bufferElements drawCallsLimit k _ hel
      (linesInv_iterate numBuffers bufferElements drawCallsLimit defaultTextureId
        hel hlim k)).2

/-- Witness for C2 (amended): capacity 8 (two quads), 7 lines emitted,
checking the pair at k = 2. -/
theorem C2_lines_flush_count_amended_witness :
    (runLines (initCtx 3 2 256 1) 7).flushCount = (2 * 7 - 1) / (2 * 4 - 2) ∧
    ((Ctx.linePair^[2] ((initCtx 3 2 256 1).begin .lines)).vertex.vertex).flushCount =
      ((Ctx.linePair^[2] ((initCtx 3 2 256 1).begin .lines)).vertex).flushCount :=
  C2_lines_flush_count_amended 3 2 256 1 7 2 (by decide) (by decide)

/-! ### C6: post-flush state -/

/-- C6 (amended): after a flush from any reachable accumulation history,
`vertexCounter` is 0 and the queue holds exactly one call with zero
vertex count, and the reset coincides with the one-step buffer-generation
advance; the sole call is the fresh default call carrying the default
texture id whenever the flush actually had accumulated vertices
(`vertexCounter > 0` at entry).  A flush entered with `vertexCounter == 0`
skips the queue drain, so the surviving call keeps whatever mode and
texture had been retargeted onto it (see the counterexample). -/
theorem C6_post_flush_state_amended
    (numBuffers bufferElements drawCallsLimit defaultTextureId : Nat)
    (ops : List Op) (hnb : 0 < numBuffers) :
    ((((initCtx numBuffers bufferElements drawCallsLimit defaultTextureId).run
        ops).drawRenderBatch).vertexCounter = 0) ∧
    ((((initCtx numBuffers bufferElements drawCallsLimit defaultTextureId).run
        ops).drawRenderBatch).batch.closedCalls = []) ∧
    ((((initCtx numBuffers bufferElements drawCallsLimit defaultTextureId).run
        ops).drawRenderBatch).batch.openCall.vertexCount = 0) ∧
    (0 < ((initCtx numBuffers bufferElements drawCallsLimit defaultTextureId).run
        ops).vertexCounter →
      (((initCtx numBuffers bufferElements drawCallsLimit defaultTextureId).run
        ops).drawRenderBatch).batch.openCall = defaultDrawCall defaultTextureId) ∧
    ((((initCtx numBuffers bufferElements drawCallsLimit defaultTextureId).run
        ops).drawRenderBatch).batch.currentBuffer =
      (((initCtx numBuffers bufferElements drawCallsLimit defaultTextureId).run
        ops).batch.currentBuffer + 1) %
      ((initCtx numBuffers bufferElements drawCallsLimit defaultTextureId).run
        ops).batch.bufferCount) := by
  have hinv := reachInv_run ops _
    (reachInv_initCtx numBuffers bufferElements drawCallsLimit defaultTextureId hnb)
  have hcfg := run_sameConfig ops
    (initCtx numBuffers bufferElements drawCallsLimit defaultTextureId)
  obtain ⟨h1, h2, h3⟩ := hinv
  refine ⟨rfl, ?_, ?_, ?_, ?_⟩
  · rw [drawRenderBatch_closedCalls]
    split
    · rfl
    · rcases h2 with h2 | h2
      · exact h2
      · omega
  · rw [drawRenderBatch_openCall]
    split
    · rfl
    · omega
  · intro hvc
    rw [drawRenderBatch_openCall, if_pos hvc, hcfg.1]
    rfl
  · rw [drawRenderBatch_currentBuffer]
    exact advance_eq_mod _ _ h3

/-- Witness for C6 (amended): three buffers of two quads, one line
accumulated, then the flush. -/
theorem C6_post_flush_state_amended_witness :
    ((((initCtx 3 2 256 1).run [Op.beginMode .lines, Op.vertex, Op.vertex]).drawRenderBatch).vertexCounter = 0) ∧
    ((((initCtx 3 2 256 1).run [Op.beginMode .lines, Op.vertex, Op.vertex]).drawRenderBatch).batch.closedCalls = []) ∧
    ((((initCtx 3 2 256 1).run [Op.beginMode .lines, Op.vertex, Op.vertex]).drawRenderBatch).batch.openCall.vertexCount = 0) ∧
    (0 < ((initCtx 3 2 256 1).run [Op.beginMode .lines, Op.vertex, Op.vertex]).vertexCounter →
      (((initCtx 3 2 256 1).run [Op.beginMode .lines, Op.vertex, Op.vertex]).drawRenderBatch).batch.openCall = defaultDrawCall 1) ∧
    ((((initCtx 3 2 256 1).run [Op.beginMode .lines, Op.vertex, Op.vertex]).drawRenderBatch).batch.currentBuffer =
      (((initCtx 3 2 256 1).run [Op.beginMode .lines, Op.vertex, Op.vertex]).batch.currentBuffer + 1) %
      ((initCtx 3 2 256 1).run [Op.beginMode .lines, Op.vertex, Op.vertex]).batch.bufferCount) :=
  C6_post_flush_state_amended 3 2 256 1 [Op.beginMode .lines, Op.vertex, Op.vertex] (by decide)

/-- Witness for C9: `bufferCount = 3`, starting at generation 0, with
five successive flushes. -/
theorem C9_generation_round_robin_witness :
    ((initCtx 3 4 256 1).drawRenderBatch).batch.currentBuffer =
      ((initCtx 3 4 256 1).batch.currentBuffer + 1) % (initCtx 3 4 256 1).batch.bufferCount ∧
    ((initCtx 3 4 256 1).drawRenderBatch).batch.currentBuffer <
      (initCtx 3 4 256 1).batch.bufferCount ∧
    (Ctx.drawRenderBatch^[5] (initCtx 3 4 256 1)).batch.currentBuffer =
      ((initCtx 3 4 256 1).batch.currentBuffer + 5) % (initCtx 3 4 256 1).batch.bufferCount :=
  C9_generation_round_robin (initCtx 3 4 256 1) 5 (by decide)

end Rlgl
